import Mathlib

/-!
Shallow embedding of `monitor/app.py` (telegram-files-monitor backend).

External effects are modelled as explicit inputs:
* `psutil.net_io_counters()` results become an `Option NetCounters`
  argument (`none` models the call raising an exception);
* the module-level globals `_last_net_io` / `_last_net_io_time` become an
  explicit `NetState` that is threaded through `get_network_stats`;
* a log file becomes an `Option (List String)` (`none` models a missing or
  unreadable file, `some lines` the list returned by `readlines()`);
* the two `subprocess.run` calls of `get_service_status` become `Option`
  inputs (`none` models a timeout or a start failure), with the regex
  extractions on the status text abstracted as pre-computed match results;
* one line of the sync log / rclone log is abstracted to the exact features
  the Python code inspects on it: the substring tests (`'同步成功' in log`,
  `'INFO' in log`, ...) become `Bool` fields and each `re.search` result
  becomes an `Option` field holding the captured groups.

Python truthiness of the values the code tests with `or` / `not` is kept
exactly: `None` and `""` are falsy for strings, `None` and `0` for ints.
Rationals stand in for floats; `pyInt` is `int()` (truncation toward zero)
and `pyRound2` is `round(x, 2)` (round half to even).
-/

namespace Monitor

/-- Cumulative byte counters as returned by `psutil.net_io_counters()`. -/
structure NetCounters where
  bytes_sent : Nat
  bytes_recv : Nat
deriving Repr, DecidableEq

/-- The module-level sampler cache: globals `_last_net_io` and
`_last_net_io_time` (app.py lines 37-38). -/
structure NetState where
  last_net_io : Option NetCounters
  last_net_io_time : Option ℚ
deriving Repr, DecidableEq

/-- The dict returned by `get_network_stats`. -/
structure NetStats where
  total_sent : Nat
  total_recv : Nat
  total_sent_gb : ℚ
  total_recv_gb : ℚ
  upload_speed : Int
  download_speed : Int
  upload_speed_mbps : ℚ
  download_speed_mbps : ℚ
deriving Repr, DecidableEq

/-- Python `int()` on a rational: truncation toward zero. -/
def pyInt (q : ℚ) : Int :=
  if q < 0 then -((-q).floor) else q.floor

/-- Round half to even to an integer (the tie-break Python `round` uses). -/
def roundHalfEven (q : ℚ) : Int :=
  if q - q.floor < 1 / 2 then q.floor
  else if 1 / 2 < q - q.floor then q.floor + 1
  else if q.floor % 2 = 0 then q.floor else q.floor + 1

/-- Python `round(x, 2)`. -/
def pyRound2 (q : ℚ) : ℚ :=
  (roundHalfEven (q * 100) : ℚ) / 100

/-- The all-zero stats dict returned from the `except` branch of
`get_network_stats` (app.py lines 306-311). -/
def zeroNetStats : NetStats :=
  { total_sent := 0, total_recv := 0, total_sent_gb := 0, total_recv_gb := 0,
    upload_speed := 0, download_speed := 0,
    upload_speed_mbps := 0, download_speed_mbps := 0 }

/-- The stats dict as first built on the success path: cumulative totals from
the current counters, rate fields initialised to zero (app.py lines 274-283). -/
def baseNetStats (cur : NetCounters) : NetStats :=
  { total_sent := cur.bytes_sent,
    total_recv := cur.bytes_recv,
    total_sent_gb := pyRound2 ((cur.bytes_sent : ℚ) / 1024 ^ 3),
    total_recv_gb := pyRound2 ((cur.bytes_recv : ℚ) / 1024 ^ 3),
    upload_speed := 0, download_speed := 0,
    upload_speed_mbps := 0, download_speed_mbps := 0 }

/-- `get_network_stats` (app.py lines 264-311).  `io` is the outcome of
`psutil.net_io_counters()` (`none` models the call raising, which lands in the
`except` branch), `now` is `datetime.now()` as seconds.  Returns the stats dict
together with the new values of the two globals. -/
def get_network_stats (st : NetState) (io : Option NetCounters) (now : ℚ) :
    NetStats × NetState :=
  match io with
  | none => (zeroNetStats, st)
  | some cur =>
    let base := baseNetStats cur
    let stats :=
      match st.last_net_io, st.last_net_io_time with
      | some last, some lastTime =>
        let time_delta := now - lastTime
        if time_delta > 0 then
          let upload_speed : ℚ :=
            ((cur.bytes_sent : ℚ) - (last.bytes_sent : ℚ)) / time_delta
          let download_speed : ℚ :=
            ((cur.bytes_recv : ℚ) - (last.bytes_recv : ℚ)) / time_delta
          { base with
            upload_speed := pyInt upload_speed,
            download_speed := pyInt download_speed,
            upload_speed_mbps := pyRound2 (upload_speed * 8 / (1024 * 1024)),
            download_speed_mbps := pyRound2 (download_speed * 8 / (1024 * 1024)) }
        else base
      | _, _ => base
    (stats, { last_net_io := some cur, last_net_io_time := some now })

/-- Hypothesis of the no-rate case of `get_network_stats`: no previous sample
is stored, or the elapsed time since it is not positive. -/
def noRateSample (st : NetState) (now : ℚ) : Prop :=
  match st.last_net_io, st.last_net_io_time with
  | some _, some t => now - t ≤ 0
  | _, _ => True

/-- Python `str.strip()` with no argument: remove leading and trailing
whitespace. -/
def pyStrip (s : String) : String :=
  ⟨((s.data.dropWhile Char.isWhitespace).reverse.dropWhile Char.isWhitespace).reverse⟩

/-- `parse_log_file` (app.py lines 71-82).  `file` is the outcome of the
`os.path.exists` / `open` / `readlines` combination: `none` when the file is
missing or unreadable (the function then returns `[]`), `some lines`
otherwise.  Each kept line is `strip()`ped.  Note that the Python slice
`lines[-max_lines:]` denotes the whole list when `max_lines = 0`. -/
def parse_log_file (file : Option (List String)) (max_lines : Nat) : List String :=
  match file with
  | none => []
  | some lines =>
    (if max_lines = 0 then lines else lines.drop (lines.length - max_lines)).map
      pyStrip

/-- Pre-computed regex extractions from the stdout of
`systemctl status <name> --no-pager` (app.py lines 164-174). -/
structure StatusText where
  pidMatch : Option Nat
  memMatch : Option (String × String)
  uptimeMatch : Option String
deriving Repr, DecidableEq

/-- The dict returned by `get_service_status`.  The success dict has no
`error` key and the failure dict has no `pid`/`memory`/`uptime` keys; an
absent key is modelled as `none`. -/
structure ServiceStatus where
  active : Bool
  status : String
  pid : Option Nat
  memory : Option String
  uptime : Option String
  error : Option String
deriving Repr, DecidableEq

/-- `get_service_status` (app.py lines 143-185).  `q1` is the stdout of
`systemctl is-active <name>`, `q2` the extractions from the stdout of
`systemctl status <name>`; `none` models the respective `subprocess.run`
raising (timeout or start failure), which aborts the `try` body and lands in
the `except` branch, `e` being `str(e)`.  The function always returns a dict
and never propagates an exception. -/
def get_service_status (q1 : Option String) (q2 : Option StatusText)
    (e : String) : ServiceStatus :=
  match q1, q2 with
  | some out1, some stx =>
    let is_active := pyStrip out1 == "active"
    { active := is_active,
      status := if is_active then "running" else "stopped",
      pid := stx.pidMatch,
      memory := some (match stx.memMatch with
        | some mg => mg.1 ++ mg.2
        | none => "N/A"),
      uptime := some (match stx.uptimeMatch with
        | some u => u
        | none => "N/A"),
      error := none }
  | _, _ =>
    { active := false, status := "unknown", pid := none,
      memory := none, uptime := none, error := some e }

/-- Python truthiness of an optional string: `None` and `""` are falsy. -/
def pyTruthyStr : Option String → Bool
  | none => false
  | some s => s != ""

/-- Python truthiness of an optional int: `None` and `0` are falsy. -/
def pyTruthyNat : Option Nat → Bool
  | none => false
  | some n => n != 0

/-- Python `x or d` for an optional string `x` and a truthy default `d`. -/
def pyOrStr (x : Option String) (d : String) : String :=
  match x with
  | some s => if s == "" then d else s
  | none => d

/-- One line of the sync log, abstracted to the features `get_sync_stats`
inspects on it (app.py lines 202-221): whether `'同步成功' in log` and
`'ERROR' in log` hold, and the captures of
`re.search(r'已移动 (\d+)MB.*?(\d+) 个文件', log)` (size in MB, file count)
and of `re.search(r'\[([^\]]+)\]', log)` (the bracketed timestamp). -/
structure SyncLine where
  hasSuccess : Bool
  movedMatch : Option (Nat × Nat)
  timeMatch : Option String
  hasERROR : Bool
deriving Repr, DecidableEq

/-- One line of the rclone log, abstracted to the features the code inspects
on it: the substring tests `'INFO' in log`, `'Copied' in log`,
`'Moved' in log`, `':' in log`, `'Transferred:' in log`, and the captures of
`re.search(r': ([^:]+): (Copied|Moved)', log)` (filename stripped, action),
`re.search(r'Transferred:\s+([^,]+),\s+(\d+)%,\s+([^,]+)', log)` (the percent
group and the stripped speed group; the bytes group is unused by the code) and
`re.search(r': ([^:]+):', log)` (the stripped filename). -/
structure RcloneLine where
  hasINFO : Bool
  hasCopied : Bool
  hasMoved : Bool
  hasColon : Bool
  recentMatch : Option (String × String)
  hasTransferred : Bool
  transferredMatch : Option (Nat × String)
  colonMatch : Option String
deriving Repr, DecidableEq

/-- The dict built by `get_sync_stats` (app.py lines 190-197);
`recent_files` holds `(name, action)` pairs. -/
structure SyncStats where
  total_synced : Nat
  total_size_mb : Nat
  success_count : Nat
  error_count : Nat
  last_sync : Option String
  recent_files : List (String × String)
deriving Repr, DecidableEq

/-- The initial stats dict of `get_sync_stats` (app.py lines 190-197). -/
def initSyncStats : SyncStats :=
  { total_synced := 0, total_size_mb := 0, success_count := 0,
    error_count := 0, last_sync := none, recent_files := [] }

/-- Body of the first loop of `get_sync_stats` for one sync-log line
(app.py lines 202-221).  Inside the success branch the size match updates the
totals, then the time match sets `last_sync` when it is still falsy
(`if time_match and not stats['last_sync']`); the `ERROR` test is an
independent `if`. -/
def syncLineStep (s : SyncStats) (l : SyncLine) : SyncStats :=
  let s1 :=
    if l.hasSuccess then
      let s' := { s with success_count := s.success_count + 1 }
      let s'' :=
        match l.movedMatch with
        | some mg =>
          { s' with total_synced := s'.total_synced + mg.2,
                    total_size_mb := s'.total_size_mb + mg.1 }
        | none => s'
      match l.timeMatch with
      | some t =>
        if pyTruthyStr s''.last_sync then s''
        else { s'' with last_sync := some t }
      | none => s''
    else s
  if l.hasERROR then { s1 with error_count := s1.error_count + 1 } else s1

/-- The completion-marker extraction of the second loop of `get_sync_stats`
(app.py lines 226-229): the `(name, action)` capture, gated by
`'INFO' in log and ('Copied' in log or 'Moved' in log)`. -/
def recentOf (l : RcloneLine) : Option (String × String) :=
  if l.hasINFO && (l.hasCopied || l.hasMoved) then l.recentMatch else none

/-- Body of the second loop of `get_sync_stats` for one rclone-log line
(app.py lines 225-234): append the capture when fewer than 10 entries are
stored. -/
def recentStep (s : SyncStats) (l : RcloneLine) : SyncStats :=
  match recentOf l with
  | some mg =>
    if s.recent_files.length < 10 then
      { s with recent_files := s.recent_files ++ [mg] }
    else s
  | none => s

/-- `get_sync_stats` (app.py lines 188-239): the first loop runs over the
sync-log tail oldest to newest, the second over the rclone-log tail in
`reversed` order (newest to oldest). -/
def get_sync_stats (syncLogs : List SyncLine) (rcloneLogs : List RcloneLine) :
    SyncStats :=
  rcloneLogs.reverse.foldl recentStep (syncLogs.foldl syncLineStep initSyncStats)

/-- A process as seen through `psutil.process_iter(['pid','name','cmdline'])`. -/
structure ProcInfo where
  name : String
  cmdline : List String
deriving Repr, DecidableEq

/-- The dict returned by `get_upload_progress`. -/
structure UploadProgress where
  is_uploading : Bool
  current_file : Option String
  progress : Nat
  speed : String
  status : String
deriving Repr, DecidableEq

/-- The mutable locals of the log scan in `get_upload_progress`
(app.py lines 358-361): `current_file`, `progress`, `speed`. -/
structure ScanState where
  current_file : Option String
  progress : Option Nat
  speed : Option String
deriving Repr, DecidableEq

/-- Body of the log scan of `get_upload_progress` for one line
(app.py lines 364-378): a `Transferred:` capture overwrites `progress` and
`speed` unconditionally; the filename capture is kept only when
`current_file` is still falsy (`if match and not current_file`). -/
def uploadScanStep (st : ScanState) (l : RcloneLine) : ScanState :=
  let st1 :=
    if l.hasTransferred then
      match l.transferredMatch with
      | some mg => { st with progress := some mg.1, speed := some mg.2 }
      | none => st
    else st
  if l.hasINFO && (l.hasCopied || l.hasMoved || l.hasColon) then
    match l.colonMatch with
    | some f =>
      if pyTruthyStr st1.current_file then st1
      else { st1 with current_file := some f }
    | none => st1
  else st1

/-- The full log scan of `get_upload_progress`: the loop
`for log in reversed(logs)` over the rclone-log tail. -/
def uploadScan (logs : List RcloneLine) : ScanState :=
  logs.reverse.foldl uploadScanStep { current_file := none, progress := none, speed := none }

/-- The process test of `get_upload_progress` (app.py lines 352-354):
name `rclone` and a `move`/`copy`/`sync` word in the command line. -/
def isTransferProc (p : ProcInfo) : Bool :=
  p.name == "rclone" &&
    (p.cmdline.contains "move" || p.cmdline.contains "copy" ||
      p.cmdline.contains "sync")

/-- The idle dict returned when no matching rclone process produced a
truthy scan result (app.py lines 390-396). -/
def idleProgress : UploadProgress :=
  { is_uploading := false, current_file := none, progress := 0,
    speed := "N/A", status := "空闲" }

/-- The uploading dict (app.py lines 381-387); `progress or 0` coincides with
`getD 0` because the falsy values `None` and `0` both map to `0`. -/
def uploadingRecord (sc : ScanState) : UploadProgress :=
  { is_uploading := true,
    current_file := some (pyOrStr sc.current_file "处理中..."),
    progress := sc.progress.getD 0,
    speed := pyOrStr sc.speed "N/A",
    status := "正在上传" }

/-- The process loop of `get_upload_progress` (app.py lines 351-396): for each
matching process the log tail is scanned; the uploading dict is returned only
when the scan produced a truthy `current_file` or a truthy `progress`
(`if current_file or progress`), otherwise the loop continues and finally
falls through to the idle dict. -/
def uploadProcLoop (logs : List RcloneLine) : List ProcInfo → UploadProgress
  | [] => idleProgress
  | p :: rest =>
    if isTransferProc p then
      let sc := uploadScan logs
      if pyTruthyStr sc.current_file || pyTruthyNat sc.progress then
        uploadingRecord sc
      else uploadProcLoop logs rest
    else uploadProcLoop logs rest

/-- `get_upload_progress` (app.py lines 347-405) on the success path:
`procs` is the process list, `logs` the rclone-log tail. -/
def get_upload_progress (procs : List ProcInfo) (logs : List RcloneLine) :
    UploadProgress :=
  uploadProcLoop logs procs

/-- The first `Transferred:` capture a line contributes: the capture gated by
`'Transferred:' in log`. -/
def transferredHit (l : RcloneLine) : Option (Nat × String) :=
  if l.hasTransferred then l.transferredMatch else none

/-- The timestamp a sync-log line contributes to `last_sync`: the bracket
capture gated by `'同步成功' in log`. -/
def syncSuccessTime (l : SyncLine) : Option String :=
  if l.hasSuccess then l.timeMatch else none

/-- On the no-rate path the stats dict is exactly the base dict: zero speeds,
totals from the current counters. -/
theorem get_network_stats_fst_of_noRateSample (st : NetState) (cur : NetCounters)
    (now : ℚ) (h : noRateSample st now) :
    (get_network_stats st (some cur) now).1 = baseNetStats cur := by
  obtain ⟨io, tm⟩ := st
  cases io with
  | none => cases tm <;> rfl
  | some last =>
    cases tm with
    | none => rfl
    | some t =>
      have hle : now - t ≤ 0 := h
      have hneg : ¬ (now - t > 0) := not_lt.mpr hle
      simp only [get_network_stats]
      rw [if_neg hneg]

/-- Claim C1 (code bug witness): with a stored previous sample of 100 bytes in
each direction taken at time 0, and current counters of 50 bytes at time 1
(a counter reset), `get_network_stats` reports `upload_speed = -50` and
`download_speed = -50`: the negative delta is not clamped and the call is not
treated as having no previous sample, so a negative speed is reported,
contrary to the spec. -/
theorem c1_counter_reset_negative_speed :
    (get_network_stats ⟨some ⟨100, 100⟩, some 0⟩ (some ⟨50, 50⟩) 1).1.upload_speed = -50 ∧
    (get_network_stats ⟨some ⟨100, 100⟩, some 0⟩ (some ⟨50, 50⟩) 1).1.download_speed = -50 ∧
    (get_network_stats ⟨some ⟨100, 100⟩, some 0⟩ (some ⟨50, 50⟩) 1).1.upload_speed < 0 := by
  have hgt : ((1 : ℚ) - 0) > 0 := by norm_num
  have hq : (((50 : Nat) : ℚ) - ((100 : Nat) : ℚ)) / ((1 : ℚ) - 0) = -50 := by norm_num
  refine ⟨?_, ?_, ?_⟩ <;>
    · simp only [get_network_stats, if_pos hgt]
      rw [hq]
      decide

/-- Claim C6: when no previous sample is stored, or the elapsed time since it
is not positive, `get_network_stats` reports zero for both instantaneous
speeds (and their Mbps variants) while `total_sent` and `total_recv` equal the
current cumulative counters. -/
theorem c6_no_sample_zero_speed (st : NetState) (cur : NetCounters) (now : ℚ)
    (h : noRateSample st now) :
    (get_network_stats st (some cur) now).1.upload_speed = 0 ∧
    (get_network_stats st (some cur) now).1.download_speed = 0 ∧
    (get_network_stats st (some cur) now).1.upload_speed_mbps = 0 ∧
    (get_network_stats st (some cur) now).1.download_speed_mbps = 0 ∧
    (get_network_stats st (some cur) now).1.total_sent = cur.bytes_sent ∧
    (get_network_stats st (some cur) now).1.total_recv = cur.bytes_recv := by
  rw [get_network_stats_fst_of_noRateSample st cur now h]
  exact ⟨rfl, rfl, rfl, rfl, rfl, rfl⟩

/-- Witness for C6 at a concrete input: a first call (no stored sample). -/
theorem c6_no_sample_zero_speed_witness :
    noRateSample ⟨none, none⟩ 5 ∧
    (get_network_stats ⟨none, none⟩ (some ⟨7, 9⟩) 5).1.upload_speed = 0 ∧
    (get_network_stats ⟨none, none⟩ (some ⟨7, 9⟩) 5).1.total_sent = 7 := by
  refine ⟨trivial, ?_, ?_⟩
  · exact (c6_no_sample_zero_speed ⟨none, none⟩ ⟨7, 9⟩ 5 trivial).1
  · exact (c6_no_sample_zero_speed ⟨none, none⟩ ⟨7, 9⟩ 5 trivial).2.2.2.2.1

/-- Claim C7: every call of `get_network_stats` that obtains the current
counters overwrites the stored previous sample with the current counters and
the current time before returning — also when it could not compute a rate
(first call, or elapsed time not positive). -/
theorem c7_baseline_updated (st : NetState) (cur : NetCounters) (now : ℚ) :
    (get_network_stats st (some cur) now).2 =
      { last_net_io := some cur, last_net_io_time := some now } := rfl

/-- Claim C10: when obtaining the current counters raises,
`get_network_stats` returns the all-zero stats dict and leaves the stored
previous-sample state unchanged. -/
theorem c10_exception_state_unchanged (st : NetState) (now : ℚ) :
    get_network_stats st none now = (zeroNetStats, st) := rfl

/-- Claim C8 counterexample: with `max_lines = 0` the Python slice
`lines[-0:]` denotes the whole list, so `parse_log_file` returns every line of
a 3-line file instead of the trailing 0 lines (the empty sequence) the claim
requires. -/
theorem c8_max_lines_zero_counterexample :
    parse_log_file (some ["a", "b", "c"]) 0 = ["a", "b", "c"] ∧
    (parse_log_file (some ["a", "b", "c"]) 0).length ≠ 0 := by
  decide

/-- Claim C8 (amended): for every positive `max_lines`, `parse_log_file`
returns the trailing `max_lines` lines of the file (or fewer when the file is
shorter), stripped, oldest first; a missing or unreadable file yields the
empty sequence. -/
theorem c8_trailing_lines (lines : List String) (k : Nat) (hk : 0 < k) :
    parse_log_file none k = [] ∧
    parse_log_file (some lines) k = ((lines.reverse.take k).reverse).map pyStrip := by
  refine ⟨rfl, ?_⟩
  have hne : k ≠ 0 := Nat.pos_iff_ne_zero.mp hk
  simp only [parse_log_file, if_neg hne]
  rw [← List.rtake_eq_reverse_take_reverse]
  rfl

/-- Witness for C8 at a concrete input: the trailing 2 lines of a 3-line
file. -/
theorem c8_trailing_lines_witness :
    0 < 2 ∧ parse_log_file (some ["a", "b", "c"]) 2 = ["b", "c"] := by
  refine ⟨by decide, ?_⟩
  exact ((c8_trailing_lines ["a", "b", "c"] 2 (by decide)).2).trans (by decide)

/-- Claim C9: when either external query of `get_service_status` times out or
cannot be started, the call returns the degraded dict with `active = false`,
`status = "unknown"` and the error detail attached; no exception propagates
(the embedding is a total function). -/
theorem c9_query_failure_degraded (q1 : Option String) (q2 : Option StatusText)
    (e : String) (h : q1 = none ∨ q2 = none) :
    (get_service_status q1 q2 e).active = false ∧
    (get_service_status q1 q2 e).status = "unknown" ∧
    (get_service_status q1 q2 e).error = some e := by
  rcases h with h | h
  · subst h; cases q2 <;> exact ⟨rfl, rfl, rfl⟩
  · subst h; cases q1 <;> exact ⟨rfl, rfl, rfl⟩

/-- Witness for C9 at a concrete input: the first query raises. -/
theorem c9_query_failure_degraded_witness :
    ((none : Option String) = none ∨ (some ⟨none, none, none⟩ : Option StatusText) = none) ∧
    (get_service_status none (some ⟨none, none, none⟩) "timed out").status = "unknown" := by
  refine ⟨Or.inl rfl, ?_⟩
  exact (c9_query_failure_degraded none (some ⟨none, none, none⟩) "timed out"
    (Or.inl rfl)).2.1

/-- Scanning one more (older) line at the front of the tail applies the loop
body last: the scan runs over `reversed(logs)`. -/
theorem uploadScan_cons (l : RcloneLine) (logs : List RcloneLine) :
    uploadScan (l :: logs) = uploadScanStep (uploadScan logs) l := by
  simp [uploadScan, List.reverse_cons, List.foldl_append]

/-- The loop body overwrites `progress` and `speed` whenever the line carries
a `Transferred:` capture, independently of their previous values. -/
theorem uploadScanStep_progress_speed (st : ScanState) (l : RcloneLine) :
    (uploadScanStep st l).progress =
      (match transferredHit l with
        | some mg => some mg.1
        | none => st.progress) ∧
    (uploadScanStep st l).speed =
      (match transferredHit l with
        | some mg => some mg.2
        | none => st.speed) := by
  simp only [uploadScanStep, transferredHit]
  cases hT : l.hasTransferred <;>
    cases hM : l.transferredMatch <;>
    cases hI : (l.hasINFO && (l.hasCopied || l.hasMoved || l.hasColon)) <;>
    cases hC : l.colonMatch <;>
    simp [apply_ite ScanState.progress, apply_ite ScanState.speed]

/-- Claim C2 counterexample: a log tail whose older line carries
`Transferred: ..., 80%, 5.0 MiB/s` and whose newer line carries
`Transferred: ..., 52%, 10.5 MiB/s`.  The newest-to-oldest scan meets the 52%
line first, yet the reported progress is 80: the later match of the scan
overwrote the first one, contrary to the claim that the first match is kept. -/
theorem c2_transferred_overwrite_counterexample :
    (get_upload_progress [⟨"rclone", ["rclone", "move", "a", "b"]⟩]
        [⟨false, false, false, true, none, true, some (80, "5.0 MiB/s"), none⟩,
         ⟨false, false, false, true, none, true, some (52, "10.5 MiB/s"), none⟩]).progress
      = 80 ∧ (80 : Nat) ≠ 52 := by
  decide

/-- Claim C2 (amended): each `Transferred:` match met by the newest-to-oldest
scan overwrites the previously kept `progress` and `speed`, so the values the
scan keeps come from the oldest matching line of the tail — the last match
met by the scan, not the first. -/
theorem c2_oldest_transferred_match_kept (logs : List RcloneLine) :
    (uploadScan logs).progress = (logs.findSome? transferredHit).map Prod.fst ∧
    (uploadScan logs).speed = (logs.findSome? transferredHit).map Prod.snd := by
  induction logs with
  | nil => exact ⟨rfl, rfl⟩
  | cons l ls ih =>
    rw [uploadScan_cons]
    have hstep := uploadScanStep_progress_speed (uploadScan ls) l
    rcases h : transferredHit l with _ | mg
    · rw [List.findSome?_cons]
      simp only [transferredHit] at h
      simp [hstep.1, hstep.2, h, ih.1, ih.2, transferredHit]
    · rw [List.findSome?_cons]
      simp only [transferredHit] at h
      simp [hstep.1, hstep.2, h, transferredHit]

/-- Claim C3 counterexample: a running `rclone move` process exists, but the
log tail is empty, so neither a filename nor a progress percentage is parsed;
the code then falls through to the idle dict and reports
`is_uploading = false`, contrary to the claim that it reports `true`. -/
theorem c3_process_without_parse_counterexample :
    isTransferProc ⟨"rclone", ["rclone", "move", "a", "b"]⟩ = true ∧
    (get_upload_progress [⟨"rclone", ["rclone", "move", "a", "b"]⟩] []).is_uploading
      = false := by
  decide

/-- Claim C3 (amended): `get_upload_progress` reports `is_uploading = true`
exactly when some process matches the rclone-transfer test and the log scan
produced a truthy `current_file` or a truthy `progress`; when a matching
process exists but neither field was parsed, the idle dict is returned
instead. -/
theorem c3_is_uploading_iff_parsed (procs : List ProcInfo) (logs : List RcloneLine) :
    (get_upload_progress procs logs).is_uploading =
      (procs.any isTransferProc &&
        (pyTruthyStr (uploadScan logs).current_file ||
          pyTruthyNat (uploadScan logs).progress)) := by
  unfold get_upload_progress
  induction procs with
  | nil => rfl
  | cons p rest ih =>
    simp only [uploadProcLoop, List.any_cons]
    cases hp : isTransferProc p
    · simp [hp, ih]
    · cases hc : (pyTruthyStr (uploadScan logs).current_file ||
          pyTruthyNat (uploadScan logs).progress)
      · simp [hp, hc, ih]
      · simp [hp, hc, uploadingRecord]

/-- The `last_sync` update of the first loop body: a bracket capture on a
success line is kept only when the stored value is still falsy. -/
theorem syncLineStep_last_sync (s : SyncStats) (l : SyncLine) :
    (syncLineStep s l).last_sync =
      (match syncSuccessTime l with
        | some t => if pyTruthyStr s.last_sync then s.last_sync else some t
        | none => s.last_sync) := by
  simp only [syncLineStep, syncSuccessTime]
  cases hs : l.hasSuccess <;>
    cases hm : l.movedMatch <;>
    cases ht : l.timeMatch <;>
    cases he : l.hasERROR <;>
    simp [apply_ite SyncStats.last_sync]

/-- The first loop of `get_sync_stats`, run from an arbitrary accumulator:
when every bracket capture in the window is a nonempty string (which the regex
`[^\]]+` guarantees), `last_sync` keeps its own truthy value, and otherwise
receives the first success-line capture of the oldest-to-newest scan. -/
theorem syncFold_last_sync (ls : List SyncLine) (s : SyncStats)
    (h : ∀ l ∈ ls, l.timeMatch ≠ some "") :
    (ls.foldl syncLineStep s).last_sync =
      if pyTruthyStr s.last_sync then s.last_sync
      else
        (match ls.findSome? syncSuccessTime with
          | some t => some t
          | none => s.last_sync) := by
  induction ls generalizing s with
  | nil =>
    cases hp : pyTruthyStr s.last_sync <;> simp [List.findSome?]
  | cons l ls ih =>
    have hl : l.timeMatch ≠ some "" := h l (List.mem_cons_self l ls)
    have hrest : ∀ x ∈ ls, x.timeMatch ≠ some "" :=
      fun x hx => h x (List.mem_cons_of_mem l hx)
    rw [List.foldl_cons, ih (syncLineStep s l) hrest, syncLineStep_last_sync,
      List.findSome?_cons]
    rcases hmatch : syncSuccessTime l with _ | t
    · rfl
    · have ht : l.timeMatch = some t := by
        simp only [syncSuccessTime] at hmatch
        cases hs : l.hasSuccess <;> rw [hs] at hmatch <;> simp at hmatch
        · exact hmatch
      have htne : t ≠ "" := fun heq => hl (by rw [ht, heq])
      cases hp : pyTruthyStr s.last_sync
      · have : pyTruthyStr (some t) = true := by
          simp [pyTruthyStr, htne]
        simp [hp, this]
      · simp [hp]

/-- The second loop of `get_sync_stats` leaves `last_sync` unchanged. -/
theorem recentStep_last_sync (s : SyncStats) (l : RcloneLine) :
    (recentStep s l).last_sync = s.last_sync := by
  simp only [recentStep]
  cases h : recentOf l
  · rfl
  · simp [apply_ite SyncStats.last_sync]

/-- The second loop of `get_sync_stats` leaves `last_sync` unchanged (whole
fold). -/
theorem recentFold_last_sync (ls : List RcloneLine) (s : SyncStats) :
    (ls.foldl recentStep s).last_sync = s.last_sync := by
  induction ls generalizing s with
  | nil => rfl
  | cons l ls ih => rw [List.foldl_cons, ih, recentStep_last_sync]

/-- Claim C4: `last_sync` is the bracket capture of the first success line of
the oldest-to-newest scan that carries one, and later success lines never
overwrite it.  The hypothesis records what the regex `\[([^\]]+)\]`
guarantees: a captured timestamp is a nonempty string. -/
theorem c4_last_sync_first_success (syncLogs : List SyncLine)
    (rcloneLogs : List RcloneLine)
    (h : ∀ l ∈ syncLogs, l.timeMatch ≠ some "") :
    (get_sync_stats syncLogs rcloneLogs).last_sync =
      syncLogs.findSome? syncSuccessTime := by
  unfold get_sync_stats
  rw [recentFold_last_sync, syncFold_last_sync syncLogs initSyncStats h]
  have : pyTruthyStr initSyncStats.last_sync = false := rfl
  rw [this]
  simp only [Bool.false_eq_true, if_false]
  rcases syncLogs.findSome? syncSuccessTime with _ | t <;> rfl

/-- Witness for C4: the spec's own example — two success lines carrying
`[2024-01-01 10:00]` then `[2024-01-01 11:00]` give
`last_sync = "2024-01-01 10:00"`. -/
theorem c4_last_sync_first_success_witness :
    (∀ l ∈ [SyncLine.mk true none (some "2024-01-01 10:00") false,
            SyncLine.mk true none (some "2024-01-01 11:00") false],
        l.timeMatch ≠ some "") ∧
    (get_sync_stats
        [SyncLine.mk true none (some "2024-01-01 10:00") false,
         SyncLine.mk true none (some "2024-01-01 11:00") false] []).last_sync =
      some "2024-01-01 10:00" := by
  refine ⟨by decide, ?_⟩
  exact (c4_last_sync_first_success
    [SyncLine.mk true none (some "2024-01-01 10:00") false,
     SyncLine.mk true none (some "2024-01-01 11:00") false] [] (by decide)).trans
    (by decide)

/-- The first loop of `get_sync_stats` never touches `recent_files`. -/
theorem syncLineStep_recent (s : SyncStats) (l : SyncLine) :
    (syncLineStep s l).recent_files = s.recent_files := by
  simp only [syncLineStep]
  cases hs : l.hasSuccess <;>
    cases hm : l.movedMatch <;>
    cases ht : l.timeMatch <;>
    cases he : l.hasERROR <;>
    simp [apply_ite SyncStats.recent_files]

/-- The first loop of `get_sync_stats` never touches `recent_files` (whole
fold). -/
theorem syncFold_recent (ls : List SyncLine) (s : SyncStats) :
    (ls.foldl syncLineStep s).recent_files = s.recent_files := by
  induction ls generalizing s with
  | nil => rfl
  | cons l ls ih => rw [List.foldl_cons, ih, syncLineStep_recent]

/-- The second loop of `get_sync_stats`, run from an arbitrary accumulator:
it appends the completion-marker captures in scan order until 10 entries are
stored. -/
theorem recentFold_recent (ls : List RcloneLine) (s : SyncStats) :
    (ls.foldl recentStep s).recent_files =
      s.recent_files ++
        (ls.filterMap recentOf).take (10 - s.recent_files.length) := by
  induction ls generalizing s with
  | nil => simp
  | cons l ls ih =>
    rw [List.foldl_cons]
    rcases h : recentOf l with _ | mg
    · have hstep : recentStep s l = s := by simp [recentStep, h]
      rw [hstep, ih, List.filterMap_cons_none h]
    · by_cases hlen : s.recent_files.length < 10
      · have hstep : recentStep s l =
            { s with recent_files := s.recent_files ++ [mg] } := by
          simp [recentStep, h, hlen]
        rw [hstep, ih, List.filterMap_cons_some h]
        have hlen2 : (s.recent_files ++ [mg]).length = s.recent_files.length + 1 := by
          simp
        rw [hlen2]
        have hsub : 10 - s.recent_files.length = (10 - (s.recent_files.length + 1)) + 1 := by
          omega
        rw [hsub, List.take_succ_cons, List.append_assoc]
        rfl
      · have hstep : recentStep s l = s := by simp [recentStep, h, hlen]
        have hzero : 10 - s.recent_files.length = 0 := by omega
        rw [hstep, ih, List.filterMap_cons_some h, hzero]
        simp

/-- Claim C5: `recent_files` equals the first 10 completion-marker captures
produced by the newest-to-oldest scan of the rclone-log tail — newest first —
and in particular never holds more than 10 entries. -/
theorem c5_recent_files_take_ten (syncLogs : List SyncLine)
    (rcloneLogs : List RcloneLine) :
    (get_sync_stats syncLogs rcloneLogs).recent_files =
      (rcloneLogs.reverse.filterMap recentOf).take 10 ∧
    (get_sync_stats syncLogs rcloneLogs).recent_files.length ≤ 10 := by
  unfold get_sync_stats
  rw [recentFold_recent, syncFold_recent]
  have hinit : initSyncStats.recent_files = [] := rfl
  rw [hinit]
  constructor
  · simp
  · simp [List.length_take_le]

end Monitor
